import Mathlib

/-!
Shallow embedding of the attention-and-violation core of the
video-interview-proctoring repository: the gaze classifier, temporal
debouncer, attention state tracker and object violation tracker of
`frontend/script.js`, together with the report schema handled by the
backend `POST /api/reports` endpoint.  Machine numbers are modelled as
exact rationals; the two divisions in `checkGazeDirection` that can hit a
zero denominator are modelled with an explicit IEEE-754-style value type
so that the `Infinity`/`NaN` behaviour of the source is preserved.
-/

namespace Proctor

/-- Model of the JavaScript (IEEE-754 double) values that arise in
`checkGazeDirection`.  All inputs and intermediate quantities are exact
rationals; only the two divisions can produce `inf` (+Infinity), `ninf`
(-Infinity) or `nan`.  Rounding of finite values is idealised away. -/
inductive JSNum where
  | nan : JSNum
  | inf : JSNum
  | ninf : JSNum
  | fin : ℚ → JSNum
  deriving DecidableEq

/-- JavaScript `x > c` for a possibly non-finite `x` and a finite literal
`c`: any comparison with `NaN` is false, `Infinity > c` is true. -/
def jsGt (x : JSNum) (c : ℚ) : Bool :=
  match x with
  | .nan => false
  | .inf => true
  | .ninf => false
  | .fin q => decide (c < q)

/-- JavaScript `x < c`: any comparison with `NaN` is false. -/
def jsLt (x : JSNum) (c : ℚ) : Bool :=
  match x with
  | .nan => false
  | .inf => false
  | .ninf => true
  | .fin q => decide (q < c)

/-- JavaScript `Math.min`: `NaN` propagates. -/
def jsMin : JSNum → JSNum → JSNum
  | .nan, _ => .nan
  | _, .nan => .nan
  | .ninf, _ => .ninf
  | _, .ninf => .ninf
  | .inf, b => b
  | a, .inf => a
  | .fin a, .fin b => .fin (min a b)

/-- JavaScript `Math.max`: `NaN` propagates. -/
def jsMax : JSNum → JSNum → JSNum
  | .nan, _ => .nan
  | _, .nan => .nan
  | .inf, _ => .inf
  | _, .inf => .inf
  | .ninf, b => b
  | a, .ninf => a
  | .fin a, .fin b => .fin (max a b)

/-- JavaScript division of two finite values: `a / 0` is `±Infinity` for
`a ≠ 0` and `NaN` for `a = 0` (the numerators in the source are absolute
values, so the sign conventions for `±0` denominators do not matter). -/
def jsDivQ (a b : ℚ) : JSNum :=
  if b = 0 then
    (if a = 0 then .nan else if 0 < a then .inf else .ninf)
  else .fin (a / b)

/-- JavaScript division on possibly non-finite values (only the cases
that can arise from `jsDivQ` results are ever reached). -/
def jsDiv : JSNum → JSNum → JSNum
  | .nan, _ => .nan
  | _, .nan => .nan
  | .inf, .inf => .nan
  | .inf, .ninf => .nan
  | .ninf, .inf => .nan
  | .ninf, .ninf => .nan
  | .inf, .fin b => if b < 0 then .ninf else .inf
  | .ninf, .fin b => if b < 0 then .inf else .ninf
  | .fin _, .inf => .fin 0
  | .fin _, .ninf => .fin 0
  | .fin a, .fin b => jsDivQ a b

/-- A 2-D landmark point (pixel coordinates). -/
structure Pt where
  x : ℚ
  y : ℚ
  deriving DecidableEq

/-- One eye's three contributing landmark points: in the source the flat
array `eye[0..5]` holds three (x, y) pairs, indexed `eye[0]/[2]/[4]` for
the x-coordinates and `eye[1]/[3]/[5]` for the y-coordinates. -/
structure Eye where
  p1 : Pt
  p2 : Pt
  p3 : Pt
  deriving DecidableEq

/-- One detected face in one frame, as consumed by `checkGazeDirection`:
`face.landmarks[0]` (right eye), `face.landmarks[1]` (left eye),
`face.landmarks[2]` (nose), and the bounding box corners. -/
structure FaceObs where
  rightEye : Eye
  leftEye : Eye
  nose : Pt
  topLeft : Pt
  bottomRight : Pt
  deriving DecidableEq

/-- One object detection: class label and confidence score
(`prediction.class` / `prediction.score`). -/
structure Detection where
  cls : String
  score : ℚ
  deriving DecidableEq

/-- The mutable globals of `frontend/script.js` that the attention and
object trackers read and write: the six violation counters, the gaze
sample window, and the two episode start times (wall-clock instants,
in milliseconds, `none` when no episode is open). -/
structure ProctorState where
  lookAwayCount : ℕ
  noFaceCount : ℕ
  multipleFacesCount : ℕ
  phoneCount : ℕ
  bookCount : ℕ
  deviceCount : ℕ
  gazeDirectionHistory : List Bool
  lookingAwayStartTime : Option ℚ
  noFaceStartTime : Option ℚ
  deriving DecidableEq

/-- `const GAZE_HISTORY_LENGTH = 8`. -/
def GAZE_HISTORY_LENGTH : ℕ := 8

/-- `const PROHIBITED_ITEMS = [...]`. -/
def PROHIBITED_ITEMS : List String :=
  ["cell phone", "book", "laptop", "keyboard", "mouse", "remote"]

/-- Session start: all counters zero, empty history, no open episodes. -/
def initState : ProctorState :=
  { lookAwayCount := 0, noFaceCount := 0, multipleFacesCount := 0
    phoneCount := 0, bookCount := 0, deviceCount := 0
    gazeDirectionHistory := [], lookingAwayStartTime := none
    noFaceStartTime := none }

/-- `gazeDirectionHistory.push(isLookingAway); if (length > 8) shift()`:
append the newest sample, evict the oldest if the window now exceeds 8. -/
def pushSample (h : List Bool) (x : Bool) : List Bool :=
  let h' := h ++ [x]
  if h'.length > GAZE_HISTORY_LENGTH then h'.tail else h'

/-- `gazeDirectionHistory.filter(val => val).length > GAZE_HISTORY_LENGTH * 0.6`:
the debounced "consistently looking away" test on the current window. -/
def isConsistentlyLookingAway (h : List Bool) : Bool :=
  decide (((h.count true : ℚ)) > (GAZE_HISTORY_LENGTH : ℚ) * 0.6)

/-- The raw single-frame classification of `checkGazeDirection`
(lines 541-579 of `frontend/script.js`): eye centers as the mean of the
three landmark x-coordinates, horizontal distances to the nose,
normalisation by the bounding-box width, and the min/max ratio test.
The divisions use `jsDivQ`/`jsDiv`, so a zero face width or a zero
maximum distance produces `Infinity`/`NaN` exactly as in JavaScript. -/
def checkGazeRawLookingAway (face : FaceObs) : Bool :=
  let rightEyeCenterX := (face.rightEye.p1.x + face.rightEye.p2.x + face.rightEye.p3.x) / 3
  let leftEyeCenterX := (face.leftEye.p1.x + face.leftEye.p2.x + face.leftEye.p3.x) / 3
  let rightEyeDistance := |rightEyeCenterX - face.nose.x|
  let leftEyeDistance := |leftEyeCenterX - face.nose.x|
  let faceWidth := |face.topLeft.x - face.bottomRight.x|
  let normalizedRightDistance := jsDivQ rightEyeDistance faceWidth
  let normalizedLeftDistance := jsDivQ leftEyeDistance faceWidth
  let distRatioOf := jsDiv (jsMin normalizedRightDistance normalizedLeftDistance)
      (jsMax normalizedRightDistance normalizedLeftDistance)
  (jsGt normalizedRightDistance 0.12 && jsGt normalizedLeftDistance 0.12) ||
    jsLt distRatioOf 0.7

/-- `checkGazeDirection(face, now)` (lines 541-624): raw classification,
window update, debounced test, then the look-away episode logic.  The
returned boolean is the function's return value (true only when a
violation fires this step). -/
def checkGazeDirection (s : ProctorState) (face : FaceObs) (now : ℚ) :
    ProctorState × Bool :=
  let raw := checkGazeRawLookingAway face
  let hist := pushSample s.gazeDirectionHistory raw
  let s1 := { s with gazeDirectionHistory := hist }
  if isConsistentlyLookingAway hist then
    match s1.lookingAwayStartTime with
    | none => ({ s1 with lookingAwayStartTime := some now }, false)
    | some t0 =>
      if (now - t0) / 1000 > 2 then
        ({ s1 with lookAwayCount := s1.lookAwayCount + 1
                   lookingAwayStartTime := some now }, true)
      else (s1, false)
  else
    ({ s1 with lookingAwayStartTime := none }, false)

/-- `handleNoFaceDetected(now)` (lines 520-538): start the no-face timer
on the first empty frame; once the elapsed time exceeds 8 seconds and
`noFaceCount` is still 0, increment it once and reset the timer. -/
def handleNoFaceDetected (s : ProctorState) (now : ℚ) : ProctorState :=
  match s.noFaceStartTime with
  | none => { s with noFaceStartTime := some now }
  | some t0 =>
    if (now - t0) / 1000 > 8 ∧ s.noFaceCount = 0 then
      { s with noFaceCount := s.noFaceCount + 1, noFaceStartTime := some now }
    else s

/-- `processFaceDetectionResults(faces)` (lines 466-517): on an empty
face list, clear the gaze history and delegate to the no-face handler;
otherwise clear the no-face timer, apply the once-per-session
multiple-faces guard, and run the gaze check for every face in list
order against the shared state.  (Canvas drawing and the focus
indicator are UI-only and omitted.) -/
def processFaceDetectionResults (s : ProctorState) (faces : List FaceObs)
    (now : ℚ) : ProctorState :=
  if faces.isEmpty then
    handleNoFaceDetected { s with gazeDirectionHistory := [] } now
  else
    let s1 := { s with noFaceStartTime := none }
    let s2 := if faces.length > 1 ∧ s1.multipleFacesCount = 0 then
        { s1 with multipleFacesCount := s1.multipleFacesCount + 1 }
      else s1
    faces.foldl (fun st f => (checkGazeDirection st f now).1) s2

/-- `handleProhibitedItemDetection(item)` (lines 733-753): classify one
qualifying detection into exactly one counter. -/
def handleProhibitedItemDetection (s : ProctorState) (item : Detection) :
    ProctorState :=
  if item.cls = "cell phone" then { s with phoneCount := s.phoneCount + 1 }
  else if item.cls = "book" then { s with bookCount := s.bookCount + 1 }
  else if item.cls ∈ ["laptop", "keyboard", "mouse", "remote"] then
    { s with deviceCount := s.deviceCount + 1 }
  else s

/-- `processObjectDetectionResults(predictions)` (lines 698-709): filter
to prohibited classes with confidence strictly above 0.6, then handle
each surviving detection. -/
def processObjectDetectionResults (s : ProctorState)
    (predictions : List Detection) : ProctorState :=
  (predictions.filter
      (fun p => decide (p.cls ∈ PROHIBITED_ITEMS ∧ (0.6 : ℚ) < p.score))).foldl
    handleProhibitedItemDetection s

/-- One tick of either independently scheduled detection channel. -/
inductive Tick where
  | face (faces : List FaceObs) (now : ℚ)
  | object (predictions : List Detection)

/-- Dispatch one tick to the corresponding tracker. -/
def step (s : ProctorState) : Tick → ProctorState
  | .face faces now => processFaceDetectionResults s faces now
  | .object predictions => processObjectDetectionResults s predictions

/-- A session: fold a sequence of ticks over the shared state. -/
def run (s : ProctorState) (ticks : List Tick) : ProctorState :=
  ticks.foldl step s

/-- The deduction sum of `updateStatusIndicators` / `downloadReport`:
`(lookAwayCount * 2) + (noFaceCount * 5) + (multipleFacesCount * 10) +
(phoneCount * 10) + (bookCount * 8) + (deviceCount * 7)`. -/
def deductionsOf (s : ProctorState) : ℤ :=
  2 * s.lookAwayCount + 5 * s.noFaceCount + 10 * s.multipleFacesCount +
    10 * s.phoneCount + 8 * s.bookCount + 7 * s.deviceCount

/-- `Math.max(0, 100 - deductions)`. -/
def integrityScoreOf (s : ProctorState) : ℤ :=
  max 0 (100 - deductionsOf s)

/-- The qualitative label chain of `updateScoreDisplay` (lines 354-366). -/
def scoreLabel (score : ℤ) : String :=
  if score ≥ 90 then "Excellent"
  else if score ≥ 70 then "Good"
  else if score ≥ 50 then "Fair"
  else "Poor"

/-- One event-log entry `{timestamp, message, type}`. -/
structure EventEntry where
  timestamp : String
  message : String
  etype : String
  deriving DecidableEq

/-- The `focusIssues` object of the report payload. -/
structure FocusIssues where
  lookAwayCount : ℕ
  noFaceCount : ℕ
  multipleFacesCount : ℕ
  deriving DecidableEq

/-- The `prohibitedItems` object of the report payload. -/
structure ProhibitedItems where
  phonesDetected : ℕ
  booksDetected : ℕ
  devicesDetected : ℕ
  deriving DecidableEq

/-- The JSON payload that `downloadReport` (lines 760-783) posts to
`POST /api/reports`. -/
structure ReportPayload where
  candidateName : String
  interviewDuration : String
  startTime : String
  endTime : String
  focusIssues : FocusIssues
  prohibitedItems : ProhibitedItems
  integrityScore : ℤ
  events : List EventEntry
  deriving DecidableEq

/-- The record the backend stores for one report. -/
structure StoredReport where
  id : String
  timestamp : String
  candidateName : String
  interviewDuration : String
  startTime : String
  endTime : String
  focusIssues : FocusIssues
  prohibitedItems : ProhibitedItems
  integrityScore : ℤ
  events : List EventEntry
  deriving DecidableEq

/-- `downloadReport` (lines 760-783): recompute the deductions and the
clamped score from the current counters and package them with the event
log.  `candidateName` is the hard-coded `"Test Candidate"`; the duration
text and ISO timestamps are read from the UI/clock and passed here as
parameters. -/
def downloadReportPayload (s : ProctorState) (durationText startISO endISO : String)
    (events : List EventEntry) : ReportPayload :=
  { candidateName := "Test Candidate"
    interviewDuration := durationText
    startTime := startISO
    endTime := endISO
    focusIssues := ⟨s.lookAwayCount, s.noFaceCount, s.multipleFacesCount⟩
    prohibitedItems := ⟨s.phoneCount, s.bookCount, s.deviceCount⟩
    integrityScore := integrityScoreOf s
    events := events }

/-- The backend `app.post` handler for `/api/reports`
(`src/unnamed/part_000`, lines 66-117): each field is defaulted with the
JavaScript `||` operator, so a *falsy* value is replaced by the default.
For the string fields the only falsy value is `""`; for `integrityScore`
it is `0`; `focusIssues`, `prohibitedItems` and `events` arrive as JSON
objects/arrays, which are always truthy in JavaScript (even `[]` and
`{}`), so they are stored verbatim.  `id` is `generateId()` and
`timestamp`/the timestamp defaults are `new Date().toISOString()`,
modelled as parameters. -/
def storeReport (id nowISO : String) (p : ReportPayload) : StoredReport :=
  { id := id
    timestamp := nowISO
    candidateName := if p.candidateName = "" then "Test Candidate" else p.candidateName
    interviewDuration := if p.interviewDuration = "" then "00:00:00" else p.interviewDuration
    startTime := if p.startTime = "" then nowISO else p.startTime
    endTime := if p.endTime = "" then nowISO else p.endTime
    focusIssues := p.focusIssues
    prohibitedItems := p.prohibitedItems
    integrityScore := if p.integrityScore = 0 then 100 else p.integrityScore
    events := p.events }

/-- Spec-side reading of the gaze-classifier geometry (claim C3): the
right eye center x-coordinate as the mean of the three landmark points. -/
def rightEyeCenterXOf (f : FaceObs) : ℚ :=
  (f.rightEye.p1.x + f.rightEye.p2.x + f.rightEye.p3.x) / 3

/-- Spec-side: left eye center x-coordinate. -/
def leftEyeCenterXOf (f : FaceObs) : ℚ :=
  (f.leftEye.p1.x + f.leftEye.p2.x + f.leftEye.p3.x) / 3

/-- Spec-side: face bounding-box width `|topLeft.x - bottomRight.x|`. -/
def faceWidthOf (f : FaceObs) : ℚ :=
  |f.topLeft.x - f.bottomRight.x|

/-- Spec-side: right eye-to-nose horizontal distance normalised by the
face width (a plain rational division; meaningful when the width is
nonzero). -/
def normalizedRightOf (f : FaceObs) : ℚ :=
  |rightEyeCenterXOf f - f.nose.x| / faceWidthOf f

/-- Spec-side: normalised left eye-to-nose horizontal distance. -/
def normalizedLeftOf (f : FaceObs) : ℚ :=
  |leftEyeCenterXOf f - f.nose.x| / faceWidthOf f

/-- The last `n` entries of a list (the result of repeated
push-then-evict updates of a sliding window). -/
def takeLast (n : ℕ) (l : List α) : List α :=
  (l.reverse.take n).reverse

/-- A face that the raw classifier judges as looking away: face width
100, nose at x = 0, right eye center at x = 20 (normalised distance
0.2 > 0.12) and left eye center at x = 30 (0.3 > 0.12). -/
def awayFace : FaceObs :=
  { rightEye := ⟨⟨20, 10⟩, ⟨20, 10⟩, ⟨20, 10⟩⟩
    leftEye := ⟨⟨30, 10⟩, ⟨30, 10⟩, ⟨30, 10⟩⟩
    nose := ⟨0, 20⟩
    topLeft := ⟨0, 0⟩
    bottomRight := ⟨100, 100⟩ }

/-- A face with a zero-width bounding box (`topLeft.x = bottomRight.x`)
but nonzero eye-to-nose distances: the degenerate-geometry input of
claim C7. -/
def zeroWidthFace : FaceObs :=
  { rightEye := ⟨⟨20, 10⟩, ⟨20, 10⟩, ⟨20, 10⟩⟩
    leftEye := ⟨⟨30, 10⟩, ⟨30, 10⟩, ⟨30, 10⟩⟩
    nose := ⟨0, 20⟩
    topLeft := ⟨0, 0⟩
    bottomRight := ⟨0, 100⟩ }

/-- The concrete 20-frame trace of claim C4: one face per frame, raw
classification "looking away" on every frame, 200 ms cadence. -/
def lookAwayTrace : List Tick :=
  (List.range 20).map (fun i => Tick.face [awayFace] (200 * (i : ℚ)))

/-- The concrete sustained no-face trace of claim C5: 21 empty frames at
1-second cadence, so the no-face condition persists for 20 seconds. -/
def noFaceTrace : List Tick :=
  (List.range 21).map (fun i => Tick.face [] (1000 * (i : ℚ)))

/-- The concrete multiple-faces trace of claim C5: two faces, then one,
then two again. -/
def multiFacesTrace : List Tick :=
  [Tick.face [awayFace, awayFace] 0, Tick.face [awayFace] 200,
    Tick.face [awayFace, awayFace] 400]

/-- A state whose deductions reach 100 (ten phone detections), so the
exported integrity score is clamped to 0: the claim C8 boundary. -/
def heavyState : ProctorState :=
  { initState with phoneCount := 10 }

/-! ### Window (sliding history) lemmas -/

theorem takeLast_of_length_le {α : Type _} {l : List α} {n : ℕ} (h : l.length ≤ n) :
    takeLast n l = l := by
  unfold takeLast
  rw [List.take_of_length_le (by simpa using h), List.reverse_reverse]

theorem takeLast_length {α : Type _} (n : ℕ) (l : List α) :
    (takeLast n l).length = min n l.length := by
  unfold takeLast
  simp [List.length_take]

theorem takeLast_append_takeLast {α : Type _} (n : ℕ) (a b : List α) :
    takeLast n (takeLast n a ++ b) = takeLast n (a ++ b) := by
  unfold takeLast
  rw [List.reverse_append, List.reverse_reverse, List.reverse_append]
  congr 1
  rw [List.take_append_eq_append_take, List.take_append_eq_append_take, List.take_take,
    show (n - b.reverse.length) ⊓ n = n - b.reverse.length from
      inf_eq_left.mpr (Nat.sub_le _ _)]

theorem pushSample_eq_takeLast {h : List Bool} (x : Bool)
    (hle : h.length ≤ GAZE_HISTORY_LENGTH) :
    pushSample h x = takeLast GAZE_HISTORY_LENGTH (h ++ [x]) := by
  unfold pushSample
  by_cases hc : (h ++ [x]).length > GAZE_HISTORY_LENGTH
  · rw [if_pos hc]
    have h8 : (h ++ [x]).length - GAZE_HISTORY_LENGTH = 1 := by
      simp only [List.length_append, List.length_singleton, GAZE_HISTORY_LENGTH] at *
      omega
    unfold takeLast
    rw [List.take_reverse, List.reverse_reverse, h8, List.drop_one]
  · rw [if_neg hc]
    exact (takeLast_of_length_le (by omega)).symm

theorem pushSample_length_le {h : List Bool} (x : Bool)
    (hle : h.length ≤ GAZE_HISTORY_LENGTH) :
    (pushSample h x).length ≤ GAZE_HISTORY_LENGTH := by
  rw [pushSample_eq_takeLast x hle, takeLast_length]
  omega

theorem consistently_iff_five (h : List Bool) :
    isConsistentlyLookingAway h = true ↔ 5 ≤ h.count true := by
  unfold isConsistentlyLookingAway GAZE_HISTORY_LENGTH
  rw [decide_eq_true_eq, gt_iff_lt,
    show ((8 : ℕ) : ℚ) * 0.6 = 24 / 5 by push_cast; norm_num,
    div_lt_iff₀ (by norm_num : (0 : ℚ) < 5)]
  constructor
  · intro hlt
    have h' : (24 : ℕ) < h.count true * 5 := by exact_mod_cast hlt
    omega
  · intro hge
    have h' : (24 : ℕ) < h.count true * 5 := by omega
    exact_mod_cast h'

/-! ### Effect of one gaze check on the shared state -/

theorem checkGazeDirection_fields (s : ProctorState) (f : FaceObs) (now : ℚ) :
    (checkGazeDirection s f now).1.noFaceCount = s.noFaceCount ∧
    (checkGazeDirection s f now).1.multipleFacesCount = s.multipleFacesCount ∧
    (checkGazeDirection s f now).1.phoneCount = s.phoneCount ∧
    (checkGazeDirection s f now).1.bookCount = s.bookCount ∧
    (checkGazeDirection s f now).1.deviceCount = s.deviceCount ∧
    (checkGazeDirection s f now).1.noFaceStartTime = s.noFaceStartTime ∧
    s.lookAwayCount ≤ (checkGazeDirection s f now).1.lookAwayCount ∧
    (checkGazeDirection s f now).1.gazeDirectionHistory =
      pushSample s.gazeDirectionHistory (checkGazeRawLookingAway f) := by
  unfold checkGazeDirection
  dsimp only
  split
  · split
    · simp
    · split
      · simp [Nat.le_succ]
      · simp
  · simp

theorem foldlGaze_fields (faces : List FaceObs) (s : ProctorState) (now : ℚ) :
    (faces.foldl (fun st f => (checkGazeDirection st f now).1) s).noFaceCount = s.noFaceCount ∧
    (faces.foldl (fun st f => (checkGazeDirection st f now).1) s).multipleFacesCount =
      s.multipleFacesCount ∧
    (faces.foldl (fun st f => (checkGazeDirection st f now).1) s).phoneCount = s.phoneCount ∧
    (faces.foldl (fun st f => (checkGazeDirection st f now).1) s).bookCount = s.bookCount ∧
    (faces.foldl (fun st f => (checkGazeDirection st f now).1) s).deviceCount = s.deviceCount ∧
    s.lookAwayCount ≤ (faces.foldl (fun st f => (checkGazeDirection st f now).1) s).lookAwayCount ∧
    (faces.foldl (fun st f => (checkGazeDirection st f now).1) s).gazeDirectionHistory =
      faces.foldl (fun h f => pushSample h (checkGazeRawLookingAway f)) s.gazeDirectionHistory := by
  induction faces generalizing s with
  | nil => simp
  | cons f fs ih =>
    obtain ⟨h1, h2, h3, h4, h5, h6, h7, h8⟩ := checkGazeDirection_fields s f now
    obtain ⟨g1, g2, g3, g4, g5, g6, g7⟩ := ih (checkGazeDirection s f now).1
    refine ⟨?_, ?_, ?_, ?_, ?_, ?_, ?_⟩ <;>
      simp only [List.foldl_cons]
    · rw [g1, h1]
    · rw [g2, h2]
    · rw [g3, h3]
    · rw [g4, h4]
    · rw [g5, h5]
    · exact le_trans h7 g6
    · rw [g7, h8]

/-! ### Effect of the no-face handler and of a whole face tick -/

theorem handleNoFaceDetected_fields (s : ProctorState) (now : ℚ) :
    (handleNoFaceDetected s now).lookAwayCount = s.lookAwayCount ∧
    (handleNoFaceDetected s now).multipleFacesCount = s.multipleFacesCount ∧
    (handleNoFaceDetected s now).phoneCount = s.phoneCount ∧
    (handleNoFaceDetected s now).bookCount = s.bookCount ∧
    (handleNoFaceDetected s now).deviceCount = s.deviceCount ∧
    (handleNoFaceDetected s now).gazeDirectionHistory = s.gazeDirectionHistory ∧
    ((handleNoFaceDetected s now).noFaceCount = s.noFaceCount ∨
      (s.noFaceCount = 0 ∧ (handleNoFaceDetected s now).noFaceCount = 1)) := by
  unfold handleNoFaceDetected
  split
  · simp
  · split
    · rename_i hcond
      simp [hcond.2]
    · simp

theorem handleProhibitedItemDetection_fields (s : ProctorState) (item : Detection) :
    (handleProhibitedItemDetection s item).lookAwayCount = s.lookAwayCount ∧
    (handleProhibitedItemDetection s item).noFaceCount = s.noFaceCount ∧
    (handleProhibitedItemDetection s item).multipleFacesCount = s.multipleFacesCount ∧
    (handleProhibitedItemDetection s item).gazeDirectionHistory = s.gazeDirectionHistory ∧
    s.phoneCount ≤ (handleProhibitedItemDetection s item).phoneCount ∧
    s.bookCount ≤ (handleProhibitedItemDetection s item).bookCount ∧
    s.deviceCount ≤ (handleProhibitedItemDetection s item).deviceCount := by
  unfold handleProhibitedItemDetection
  split
  · simp [Nat.le_succ]
  · split
    · simp [Nat.le_succ]
    · split
      · simp [Nat.le_succ]
      · simp

theorem foldlProhibited_fields (l : List Detection) (s : ProctorState) :
    (l.foldl handleProhibitedItemDetection s).lookAwayCount = s.lookAwayCount ∧
    (l.foldl handleProhibitedItemDetection s).noFaceCount = s.noFaceCount ∧
    (l.foldl handleProhibitedItemDetection s).multipleFacesCount = s.multipleFacesCount ∧
    (l.foldl handleProhibitedItemDetection s).gazeDirectionHistory = s.gazeDirectionHistory ∧
    s.phoneCount ≤ (l.foldl handleProhibitedItemDetection s).phoneCount ∧
    s.bookCount ≤ (l.foldl handleProhibitedItemDetection s).bookCount ∧
    s.deviceCount ≤ (l.foldl handleProhibitedItemDetection s).deviceCount := by
  induction l generalizing s with
  | nil => simp
  | cons d ds ih =>
    obtain ⟨h1, h2, h3, h4, h5, h6, h7⟩ := handleProhibitedItemDetection_fields s d
    obtain ⟨g1, g2, g3, g4, g5, g6, g7⟩ := ih (handleProhibitedItemDetection s d)
    refine ⟨?_, ?_, ?_, ?_, ?_, ?_, ?_⟩ <;> simp only [List.foldl_cons]
    · rw [g1, h1]
    · rw [g2, h2]
    · rw [g3, h3]
    · rw [g4, h4]
    · exact le_trans h5 g5
    · exact le_trans h6 g6
    · exact le_trans h7 g7

/-! ### Folding the window update over the faces of one frame -/

theorem foldl_pushSample_eq {α : Type _} (g : α → Bool) (xs : List α) (h : List Bool)
    (hle : h.length ≤ GAZE_HISTORY_LENGTH) :
    xs.foldl (fun hh x => pushSample hh (g x)) h =
      takeLast GAZE_HISTORY_LENGTH (h ++ xs.map g) := by
  induction xs generalizing h with
  | nil => simp [takeLast_of_length_le hle]
  | cons x xs ih =>
    simp only [List.foldl_cons, List.map_cons]
    rw [ih (pushSample h (g x)) (pushSample_length_le _ hle),
      pushSample_eq_takeLast _ hle, takeLast_append_takeLast,
      List.append_assoc, List.singleton_append]

/-! ### Rewriting one face tick -/

theorem processFace_empty (s : ProctorState) (faces : List FaceObs) (now : ℚ)
    (h : faces.isEmpty) :
    processFaceDetectionResults s faces now =
      handleNoFaceDetected { s with gazeDirectionHistory := [] } now := by
  simp only [processFaceDetectionResults]
  rw [if_pos h]

theorem processFace_nonempty (s : ProctorState) (faces : List FaceObs) (now : ℚ)
    (h : ¬ faces.isEmpty) :
    processFaceDetectionResults s faces now =
      faces.foldl (fun st f => (checkGazeDirection st f now).1)
        (if faces.length > 1 ∧ s.multipleFacesCount = 0 then
          { s with noFaceStartTime := none
                   multipleFacesCount := s.multipleFacesCount + 1 }
        else { s with noFaceStartTime := none }) := by
  simp only [processFaceDetectionResults]
  rw [if_neg h]

/-! ### One tick of either channel: monotone counters, guards, window bound -/

theorem step_counters_mono (s : ProctorState) (t : Tick) :
    s.lookAwayCount ≤ (step s t).lookAwayCount ∧
    s.noFaceCount ≤ (step s t).noFaceCount ∧
    s.multipleFacesCount ≤ (step s t).multipleFacesCount ∧
    s.phoneCount ≤ (step s t).phoneCount ∧
    s.bookCount ≤ (step s t).bookCount ∧
    s.deviceCount ≤ (step s t).deviceCount := by
  cases t with
  | face faces now =>
    simp only [step]
    by_cases he : faces.isEmpty
    · rw [processFace_empty s faces now he]
      obtain ⟨h1, h2, h3, h4, h5, h6, h7⟩ :=
        handleNoFaceDetected_fields { s with gazeDirectionHistory := [] } now
      refine ⟨le_of_eq h1.symm, ?_, le_of_eq h2.symm, le_of_eq h3.symm,
        le_of_eq h4.symm, le_of_eq h5.symm⟩
      have hbase : ({ s with gazeDirectionHistory := ([] : List Bool) }).noFaceCount
          = s.noFaceCount := rfl
      rcases h7 with h7 | ⟨h70, h71⟩ <;> omega
    · rw [processFace_nonempty s faces now he]
      by_cases hc : faces.length > 1 ∧ s.multipleFacesCount = 0
      · rw [if_pos hc]
        obtain ⟨g1, g2, g3, g4, g5, g6, g7⟩ := foldlGaze_fields faces
          { s with noFaceStartTime := none
                   multipleFacesCount := s.multipleFacesCount + 1 } now
        have e1 : ({ s with noFaceStartTime := none, multipleFacesCount := s.multipleFacesCount + 1 } : ProctorState).lookAwayCount = s.lookAwayCount := rfl
        have e2 : ({ s with noFaceStartTime := none, multipleFacesCount := s.multipleFacesCount + 1 } : ProctorState).noFaceCount = s.noFaceCount := rfl
        have e3 : ({ s with noFaceStartTime := none, multipleFacesCount := s.multipleFacesCount + 1 } : ProctorState).multipleFacesCount = s.multipleFacesCount + 1 := rfl
        have e4 : ({ s with noFaceStartTime := none, multipleFacesCount := s.multipleFacesCount + 1 } : ProctorState).phoneCount = s.phoneCount := rfl
        have e5 : ({ s with noFaceStartTime := none, multipleFacesCount := s.multipleFacesCount + 1 } : ProctorState).bookCount = s.bookCount := rfl
        have e6 : ({ s with noFaceStartTime := none, multipleFacesCount := s.multipleFacesCount + 1 } : ProctorState).deviceCount = s.deviceCount := rfl
        exact ⟨by omega, by omega, by omega, by omega, by omega, by omega⟩
      · rw [if_neg hc]
        obtain ⟨g1, g2, g3, g4, g5, g6, g7⟩ := foldlGaze_fields faces
          { s with noFaceStartTime := none } now
        have e1 : ({ s with noFaceStartTime := none } : ProctorState).lookAwayCount = s.lookAwayCount := rfl
        have e2 : ({ s with noFaceStartTime := none } : ProctorState).noFaceCount = s.noFaceCount := rfl
        have e3 : ({ s with noFaceStartTime := none } : ProctorState).multipleFacesCount = s.multipleFacesCount := rfl
        have e4 : ({ s with noFaceStartTime := none } : ProctorState).phoneCount = s.phoneCount := rfl
        have e5 : ({ s with noFaceStartTime := none } : ProctorState).bookCount = s.bookCount := rfl
        have e6 : ({ s with noFaceStartTime := none } : ProctorState).deviceCount = s.deviceCount := rfl
        exact ⟨by omega, by omega, by omega, by omega, by omega, by omega⟩
  | object predictions =>
    simp only [step]
    unfold processObjectDetectionResults
    obtain ⟨h1, h2, h3, h4, h5, h6, h7⟩ := foldlProhibited_fields
      (predictions.filter
        (fun p => decide (p.cls ∈ PROHIBITED_ITEMS ∧ (0.6 : ℚ) < p.score))) s
    exact ⟨le_of_eq h1.symm, le_of_eq h2.symm, le_of_eq h3.symm, h5, h6, h7⟩

theorem step_guard (s : ProctorState) (t : Tick)
    (hn : s.noFaceCount ≤ 1) (hm : s.multipleFacesCount ≤ 1) :
    (step s t).noFaceCount ≤ 1 ∧ (step s t).multipleFacesCount ≤ 1 := by
  cases t with
  | face faces now =>
    simp only [step]
    by_cases he : faces.isEmpty
    · rw [processFace_empty s faces now he]
      obtain ⟨h1, h2, h3, h4, h5, h6, h7⟩ :=
        handleNoFaceDetected_fields { s with gazeDirectionHistory := [] } now
      have hbase : ({ s with gazeDirectionHistory := ([] : List Bool) }).noFaceCount
          = s.noFaceCount := rfl
      have hbm : ({ s with gazeDirectionHistory := ([] : List Bool) }).multipleFacesCount
          = s.multipleFacesCount := rfl
      constructor
      · rcases h7 with h7 | ⟨h70, h71⟩ <;> omega
      · omega
    · rw [processFace_nonempty s faces now he]
      by_cases hc : faces.length > 1 ∧ s.multipleFacesCount = 0
      · rw [if_pos hc]
        obtain ⟨g1, g2, g3, g4, g5, g6, g7⟩ := foldlGaze_fields faces
          { s with noFaceStartTime := none
                   multipleFacesCount := s.multipleFacesCount + 1 } now
        have e2 : ({ s with noFaceStartTime := none, multipleFacesCount := s.multipleFacesCount + 1 } : ProctorState).noFaceCount = s.noFaceCount := rfl
        have e3 : ({ s with noFaceStartTime := none, multipleFacesCount := s.multipleFacesCount + 1 } : ProctorState).multipleFacesCount = s.multipleFacesCount + 1 := rfl
        have hc2 := hc.2
        exact ⟨by omega, by omega⟩
      · rw [if_neg hc]
        obtain ⟨g1, g2, g3, g4, g5, g6, g7⟩ := foldlGaze_fields faces
          { s with noFaceStartTime := none } now
        have e2 : ({ s with noFaceStartTime := none } : ProctorState).noFaceCount = s.noFaceCount := rfl
        have e3 : ({ s with noFaceStartTime := none } : ProctorState).multipleFacesCount = s.multipleFacesCount := rfl
        exact ⟨by omega, by omega⟩
  | object predictions =>
    simp only [step]
    unfold processObjectDetectionResults
    obtain ⟨h1, h2, h3, h4, h5, h6, h7⟩ := foldlProhibited_fields
      (predictions.filter
        (fun p => decide (p.cls ∈ PROHIBITED_ITEMS ∧ (0.6 : ℚ) < p.score))) s
    exact ⟨by omega, by omega⟩

theorem step_history_le (s : ProctorState) (t : Tick)
    (h : s.gazeDirectionHistory.length ≤ GAZE_HISTORY_LENGTH) :
    (step s t).gazeDirectionHistory.length ≤ GAZE_HISTORY_LENGTH := by
  cases t with
  | face faces now =>
    simp only [step]
    by_cases he : faces.isEmpty
    · rw [processFace_empty s faces now he]
      obtain ⟨h1, h2, h3, h4, h5, h6, h7⟩ :=
        handleNoFaceDetected_fields { s with gazeDirectionHistory := [] } now
      rw [h6]
      simp [GAZE_HISTORY_LENGTH]
    · rw [processFace_nonempty s faces now he]
      by_cases hc : faces.length > 1 ∧ s.multipleFacesCount = 0
      · rw [if_pos hc]
        obtain ⟨g1, g2, g3, g4, g5, g6, g7⟩ := foldlGaze_fields faces
          { s with noFaceStartTime := none
                   multipleFacesCount := s.multipleFacesCount + 1 } now
        have hb : ({ s with noFaceStartTime := none, multipleFacesCount := s.multipleFacesCount + 1 } : ProctorState).gazeDirectionHistory.length ≤ GAZE_HISTORY_LENGTH := h
        rw [g7, foldl_pushSample_eq _ _ _ hb, takeLast_length]
        omega
      · rw [if_neg hc]
        obtain ⟨g1, g2, g3, g4, g5, g6, g7⟩ := foldlGaze_fields faces
          { s with noFaceStartTime := none } now
        have hb : ({ s with noFaceStartTime := none } : ProctorState).gazeDirectionHistory.length ≤ GAZE_HISTORY_LENGTH := h
        rw [g7, foldl_pushSample_eq _ _ _ hb, takeLast_length]
        omega
  | object predictions =>
    simp only [step]
    unfold processObjectDetectionResults
    obtain ⟨h1, h2, h3, h4, h5, h6, h7⟩ := foldlProhibited_fields
      (predictions.filter
        (fun p => decide (p.cls ∈ PROHIBITED_ITEMS ∧ (0.6 : ℚ) < p.score))) s
    rw [h4]
    exact h

/-! ### Whole-session lemmas -/

theorem run_counters_mono (ticks : List Tick) (s : ProctorState) :
    s.lookAwayCount ≤ (run s ticks).lookAwayCount ∧
    s.noFaceCount ≤ (run s ticks).noFaceCount ∧
    s.multipleFacesCount ≤ (run s ticks).multipleFacesCount ∧
    s.phoneCount ≤ (run s ticks).phoneCount ∧
    s.bookCount ≤ (run s ticks).bookCount ∧
    s.deviceCount ≤ (run s ticks).deviceCount := by
  induction ticks generalizing s with
  | nil => simp [run]
  | cons t ts ih =>
    obtain ⟨h1, h2, h3, h4, h5, h6⟩ := step_counters_mono s t
    obtain ⟨g1, g2, g3, g4, g5, g6⟩ := ih (step s t)
    have hrun : run s (t :: ts) = run (step s t) ts := by simp [run]
    rw [hrun]
    exact ⟨le_trans h1 g1, le_trans h2 g2, le_trans h3 g3,
      le_trans h4 g4, le_trans h5 g5, le_trans h6 g6⟩

theorem run_guard (ticks : List Tick) (s : ProctorState)
    (hn : s.noFaceCount ≤ 1) (hm : s.multipleFacesCount ≤ 1) :
    (run s ticks).noFaceCount ≤ 1 ∧ (run s ticks).multipleFacesCount ≤ 1 := by
  induction ticks generalizing s with
  | nil => exact ⟨hn, hm⟩
  | cons t ts ih =>
    obtain ⟨h1, h2⟩ := step_guard s t hn hm
    have hrun : run s (t :: ts) = run (step s t) ts := by simp [run]
    rw [hrun]
    exact ih (step s t) h1 h2

theorem run_history_le (ticks : List Tick) (s : ProctorState)
    (h : s.gazeDirectionHistory.length ≤ GAZE_HISTORY_LENGTH) :
    (run s ticks).gazeDirectionHistory.length ≤ GAZE_HISTORY_LENGTH := by
  induction ticks generalizing s with
  | nil => exact h
  | cons t ts ih =>
    have hrun : run s (t :: ts) = run (step s t) ts := by simp [run]
    rw [hrun]
    exact ih (step s t) (step_history_le s t h)

/-! ### Scorer label characterisation -/

theorem scoreLabel_spec (x : ℤ) :
    (scoreLabel x = "Excellent" ↔ 90 ≤ x) ∧
    (scoreLabel x = "Good" ↔ 70 ≤ x ∧ x < 90) ∧
    (scoreLabel x = "Fair" ↔ 50 ≤ x ∧ x < 70) ∧
    (scoreLabel x = "Poor" ↔ x < 50) := by
  unfold scoreLabel
  split_ifs with h1 h2 h3 <;>
    refine ⟨⟨fun hh => ?_, fun hh => ?_⟩, ⟨fun hh => ?_, fun hh => ?_⟩,
      ⟨fun hh => ?_, fun hh => ?_⟩, ⟨fun hh => ?_, fun hh => ?_⟩⟩ <;>
    simp_all <;> omega

/-! ### Claim theorems -/

/-- Claim C1: for every six counter values, the integrity scorer computes
deductions = 2·lookAway + 5·noFace + 10·multipleFaces + 10·phone + 8·book +
7·device and returns score = max(0, 100 − deductions); the score is never
negative (0 whenever deductions ≥ 100), and the label is "Excellent" iff
score ≥ 90, "Good" iff 70 ≤ score < 90, "Fair" iff 50 ≤ score < 70, and
"Poor" otherwise. -/
theorem C1_integrity_scorer (s : ProctorState) :
    integrityScoreOf s =
      max 0 (100 - (2 * (s.lookAwayCount : ℤ) + 5 * (s.noFaceCount : ℤ) +
        10 * (s.multipleFacesCount : ℤ) + 10 * (s.phoneCount : ℤ) +
        8 * (s.bookCount : ℤ) + 7 * (s.deviceCount : ℤ))) ∧
    0 ≤ integrityScoreOf s ∧
    (100 ≤ deductionsOf s → integrityScoreOf s = 0) ∧
    (scoreLabel (integrityScoreOf s) = "Excellent" ↔ 90 ≤ integrityScoreOf s) ∧
    (scoreLabel (integrityScoreOf s) = "Good" ↔
      70 ≤ integrityScoreOf s ∧ integrityScoreOf s < 90) ∧
    (scoreLabel (integrityScoreOf s) = "Fair" ↔
      50 ≤ integrityScoreOf s ∧ integrityScoreOf s < 70) ∧
    (scoreLabel (integrityScoreOf s) = "Poor" ↔ integrityScoreOf s < 50) := by
  obtain ⟨l1, l2, l3, l4⟩ := scoreLabel_spec (integrityScoreOf s)
  refine ⟨rfl, le_max_left _ _, fun hd => ?_, l1, l2, l3, l4⟩
  unfold integrityScoreOf
  rw [max_eq_left (by omega : 100 - deductionsOf s ≤ 0)]

/-- Witness for C1: ten phone detections give deductions 100 and score 0. -/
theorem C1_integrity_scorer_witness : integrityScoreOf heavyState = 0 :=
  (C1_integrity_scorer heavyState).2.2.1 (by norm_num [deductionsOf, heavyState, initState])

/-- Claim C2: the temporal debouncer pushes the newest sample, evicts the
oldest when the window exceeds 8, and reports "consistently looking away"
iff the number of true samples strictly exceeds 8 · 0.6 = 4.8; with a full
window of 8 samples, 5 true samples give true and 4 give false. -/
theorem C2_temporal_debouncer :
    (∀ (h : List Bool) (x : Bool), h.length ≤ GAZE_HISTORY_LENGTH →
      pushSample h x = takeLast GAZE_HISTORY_LENGTH (h ++ [x]) ∧
      (pushSample h x).length ≤ GAZE_HISTORY_LENGTH) ∧
    (∀ h : List Bool, isConsistentlyLookingAway h = true ↔
      ((h.count true : ℚ)) > (GAZE_HISTORY_LENGTH : ℚ) * 0.6) ∧
    (∀ h : List Bool, isConsistentlyLookingAway h = true ↔ 5 ≤ h.count true) ∧
    (∀ h : List Bool, h.length = GAZE_HISTORY_LENGTH →
      (h.count true = 5 → isConsistentlyLookingAway h = true) ∧
      (h.count true = 4 → isConsistentlyLookingAway h = false)) := by
  refine ⟨fun h x hle => ⟨pushSample_eq_takeLast x hle, pushSample_length_le x hle⟩,
    fun h => by unfold isConsistentlyLookingAway; rw [decide_eq_true_eq],
    consistently_iff_five,
    fun h hlen => ⟨fun hc => (consistently_iff_five h).mpr (by omega), fun hc => ?_⟩⟩
  cases hq : isConsistentlyLookingAway h
  · rfl
  · exact absurd ((consistently_iff_five h).mp hq) (by omega)

/-- Witness for C2: the 5-of-8 and 4-of-8 boundaries and one window update. -/
theorem C2_temporal_debouncer_witness :
    isConsistentlyLookingAway [true, true, true, true, true, false, false, false] = true ∧
    isConsistentlyLookingAway [true, true, true, true, false, false, false, false] = false ∧
    pushSample [true] false = takeLast GAZE_HISTORY_LENGTH [true, false] :=
  ⟨(C2_temporal_debouncer.2.2.2 _ (by rfl)).1 (by rfl),
   (C2_temporal_debouncer.2.2.2 _ (by rfl)).2 (by rfl),
   (C2_temporal_debouncer.1 [true] false (by decide)).1⟩

theorem jsDivQ_of_ne {a b : ℚ} (hb : b ≠ 0) : jsDivQ a b = .fin (a / b) := by
  unfold jsDivQ
  rw [if_neg hb]

theorem jsMin_fin (a b : ℚ) : jsMin (.fin a) (.fin b) = .fin (min a b) := rfl

theorem jsMax_fin (a b : ℚ) : jsMax (.fin a) (.fin b) = .fin (max a b) := rfl

theorem jsGt_fin (q c : ℚ) : jsGt (.fin q) c = decide (c < q) := rfl

theorem jsLt_fin (q c : ℚ) : jsLt (.fin q) c = decide (q < c) := rfl

theorem jsDiv_fin (a b : ℚ) : jsDiv (.fin a) (.fin b) = jsDivQ a b := rfl

/-- Claim C3: for a single face observation with nonzero face width, the
raw per-frame classification holds iff (normalizedRight > 0.12 AND
normalizedLeft > 0.12) OR eyeDistanceRatio < 0.7, with the eye centers,
normalisations and min/max ratio as in the spec.  The ratio condition is
stated with the explicit guard `max ≠ 0`, which is the IEEE reading of
`min/max < 0.7` at the single degenerate point where both normalised
distances are zero (`0/0` is `NaN` and `NaN < 0.7` is false). -/
theorem C3_raw_gaze_classifier (f : FaceObs) (hw : faceWidthOf f ≠ 0) :
    checkGazeRawLookingAway f = true ↔
      ((normalizedRightOf f > 0.12 ∧ normalizedLeftOf f > 0.12) ∨
        (max (normalizedRightOf f) (normalizedLeftOf f) ≠ 0 ∧
          min (normalizedRightOf f) (normalizedLeftOf f) /
            max (normalizedRightOf f) (normalizedLeftOf f) < 0.7)) := by
  have hw' : |f.topLeft.x - f.bottomRight.x| ≠ 0 := hw
  simp only [checkGazeRawLookingAway, normalizedRightOf, normalizedLeftOf,
    rightEyeCenterXOf, leftEyeCenterXOf, faceWidthOf]
  rw [jsDivQ_of_ne hw', jsDivQ_of_ne hw', jsMin_fin, jsMax_fin, jsDiv_fin,
    jsGt_fin, jsGt_fin]
  set A := |(f.rightEye.p1.x + f.rightEye.p2.x + f.rightEye.p3.x) / 3 - f.nose.x| /
    |f.topLeft.x - f.bottomRight.x| with hA
  set B := |(f.leftEye.p1.x + f.leftEye.p2.x + f.leftEye.p3.x) / 3 - f.nose.x| /
    |f.topLeft.x - f.bottomRight.x| with hB
  have ha0 : 0 ≤ A := by
    rw [hA]
    exact div_nonneg (abs_nonneg _) (abs_nonneg _)
  have hb0 : 0 ≤ B := by
    rw [hB]
    exact div_nonneg (abs_nonneg _) (abs_nonneg _)
  by_cases hM : max A B = 0
  · have hA0 : A = 0 := le_antisymm (hM ▸ le_max_left A B) ha0
    have hB0 : B = 0 := le_antisymm (hM ▸ le_max_right A B) hb0
    have hm : min A B = 0 := by rw [hA0, hB0, min_self]
    rw [hm, hM]
    simp only [jsDivQ, if_pos rfl, jsLt]
    simp [hA0, hB0]
  · rw [jsDivQ_of_ne hM, jsLt_fin]
    simp only [Bool.or_eq_true, Bool.and_eq_true, decide_eq_true_eq, ne_eq, hM,
      not_false_eq_true, true_and, gt_iff_lt]

/-- Witness for C3: the looking-away face has width 100 and satisfies the
equivalence. -/
theorem C3_raw_gaze_classifier_witness :
    faceWidthOf awayFace ≠ 0 ∧
    (checkGazeRawLookingAway awayFace = true ↔
      ((normalizedRightOf awayFace > 0.12 ∧ normalizedLeftOf awayFace > 0.12) ∨
        (max (normalizedRightOf awayFace) (normalizedLeftOf awayFace) ≠ 0 ∧
          min (normalizedRightOf awayFace) (normalizedLeftOf awayFace) /
            max (normalizedRightOf awayFace) (normalizedLeftOf awayFace) < 0.7))) :=
  ⟨by norm_num [faceWidthOf, awayFace],
   C3_raw_gaze_classifier awayFace (by norm_num [faceWidthOf, awayFace])⟩

set_option maxRecDepth 1000000

/-- Claim C4 (amended): on the transition into "consistently looking away"
with no open episode, the episode is opened (start time recorded) and
lookAwayCount is not incremented; on a step where the episode is open, the
condition holds and more than 2.0 s have elapsed since the episode start,
lookAwayCount is incremented by 1 and the start time is reset to now.
However, a sustained look-away for 20 frames at 200 ms cadence from a
fresh session increments lookAwayCount by exactly 1 (not 2): the 8-sample
debouncer needs 5 frames (800 ms) before the episode opens, and the single
firing happens at 3000 ms, so a second firing would need the span to reach
5000 ms. -/
theorem C4_look_away_episodes :
    (∀ (s : ProctorState) (f : FaceObs) (now : ℚ),
      isConsistentlyLookingAway
        (pushSample s.gazeDirectionHistory (checkGazeRawLookingAway f)) = true →
      s.lookingAwayStartTime = none →
      (checkGazeDirection s f now).1.lookAwayCount = s.lookAwayCount ∧
      (checkGazeDirection s f now).1.lookingAwayStartTime = some now) ∧
    (∀ (s : ProctorState) (f : FaceObs) (now t0 : ℚ),
      isConsistentlyLookingAway
        (pushSample s.gazeDirectionHistory (checkGazeRawLookingAway f)) = true →
      s.lookingAwayStartTime = some t0 →
      (now - t0) / 1000 > 2 →
      (checkGazeDirection s f now).1.lookAwayCount = s.lookAwayCount + 1 ∧
      (checkGazeDirection s f now).1.lookingAwayStartTime = some now) ∧
    (run initState lookAwayTrace).lookAwayCount = 1 := by
  refine ⟨fun s f now hcons hnone => ?_, fun s f now t0 hcons hsome hdur => ?_, ?_⟩
  · simp only [checkGazeDirection, hcons, hnone]
    simp
  · simp only [checkGazeDirection, hcons, hsome]
    rw [if_pos hdur]
    simp
  · with_unfolding_all rfl

/-- Counterexample for C4 as frozen: the 20-frame 200 ms scenario yields
lookAwayCount 1, not floor(4000/2000) = 2. -/
theorem C4_look_away_episodes_cex :
    (run initState lookAwayTrace).lookAwayCount ≠ 2 := by
  have h1 : (run initState lookAwayTrace).lookAwayCount = 1 := by
    with_unfolding_all rfl
  omega

/-- Witness for C4: a full-true window with an episode open since time 0
fires at time 2200 and increments the counter to 1. -/
theorem C4_look_away_episodes_witness :
    (checkGazeDirection
      { initState with
        gazeDirectionHistory := [true, true, true, true, true, true, true, true],
        lookingAwayStartTime := some 0 } awayFace 2200).1.lookAwayCount = 1 :=
  (C4_look_away_episodes.2.1
    { initState with
      gazeDirectionHistory := [true, true, true, true, true, true, true, true],
      lookingAwayStartTime := some 0 } awayFace 2200 0
    (by with_unfolding_all rfl) rfl (by norm_num)).1

/-- Claim C5: in every session, noFaceCount and multipleFacesCount never
exceed 1; a sustained no-face condition (> 8 s, here 20 s of empty frames)
increments noFaceCount exactly once, and faces going 2 → 1 → 2 increment
multipleFacesCount exactly once. -/
theorem C5_once_only_guards :
    (∀ ticks : List Tick,
      (run initState ticks).noFaceCount ≤ 1 ∧
      (run initState ticks).multipleFacesCount ≤ 1) ∧
    (run initState noFaceTrace).noFaceCount = 1 ∧
    (run initState multiFacesTrace).multipleFacesCount = 1 := by
  refine ⟨fun ticks => run_guard ticks initState (by norm_num [initState])
    (by norm_num [initState]), ?_, ?_⟩
  · with_unfolding_all rfl
  · with_unfolding_all rfl

/-- Claim C7 is violated by the code (code bug): with a zero-width
bounding box the divisions are unguarded; in JavaScript they produce
Infinity, `Infinity > 0.12` is true, and the frame is classified as
looking away = true, not the claimed false. -/
theorem C7_zero_width_unguarded :
    faceWidthOf zeroWidthFace = 0 ∧
    checkGazeRawLookingAway zeroWidthFace = true := by
  constructor
  · norm_num [faceWidthOf, zeroWidthFace]
  · with_unfolding_all rfl

/-! ### Counting lemmas for the object tracker -/

theorem foldlProhibited_phone (l : List Detection) (s : ProctorState) :
    (l.foldl handleProhibitedItemDetection s).phoneCount =
      s.phoneCount + l.countP (fun p => decide (p.cls = "cell phone")) := by
  induction l generalizing s with
  | nil => simp
  | cons d ds ih =>
    rw [List.foldl_cons, List.countP_cons, ih]
    unfold handleProhibitedItemDetection
    by_cases h1 : d.cls = "cell phone"
    · simp [h1]; omega
    · by_cases h2 : d.cls = "book"
      · simp [h1, h2]
      · by_cases h3 : d.cls ∈ ["laptop", "keyboard", "mouse", "remote"]
        · simp [h1, h2, h3]
        · simp [h1, h2, h3]

theorem foldlProhibited_book (l : List Detection) (s : ProctorState) :
    (l.foldl handleProhibitedItemDetection s).bookCount =
      s.bookCount + l.countP (fun p => decide (p.cls = "book")) := by
  induction l generalizing s with
  | nil => simp
  | cons d ds ih =>
    rw [List.foldl_cons, List.countP_cons, ih]
    unfold handleProhibitedItemDetection
    by_cases h1 : d.cls = "cell phone"
    · simp [h1]
    · by_cases h2 : d.cls = "book"
      · simp [h1, h2]; omega
      · by_cases h3 : d.cls ∈ ["laptop", "keyboard", "mouse", "remote"]
        · simp [h1, h2, h3]
        · simp [h1, h2, h3]

theorem foldlProhibited_device (l : List Detection) (s : ProctorState) :
    (l.foldl handleProhibitedItemDetection s).deviceCount =
      s.deviceCount + l.countP
        (fun p => decide (p.cls ∈ ["laptop", "keyboard", "mouse", "remote"])) := by
  induction l generalizing s with
  | nil => simp
  | cons d ds ih =>
    rw [List.foldl_cons, List.countP_cons, ih]
    unfold handleProhibitedItemDetection
    by_cases h1 : d.cls = "cell phone"
    · have h3 : d.cls ∉ ["laptop", "keyboard", "mouse", "remote"] := by simp [h1]
      simp [h1, h3]
    · by_cases h2 : d.cls = "book"
      · have h3 : d.cls ∉ ["laptop", "keyboard", "mouse", "remote"] := by simp [h2]
        simp [h1, h2, h3]
      · by_cases h3 : d.cls ∈ ["laptop", "keyboard", "mouse", "remote"]
        · simp [h1, h2, h3]; omega
        · simp [h1, h2, h3]

/-- Claim C6: a detection contributes iff its class is prohibited and its
confidence is strictly greater than 0.6; each qualifying detection
increments exactly one counter ("cell phone" → phoneCount, "book" →
bookCount, laptop/keyboard/mouse/remote → deviceCount), uncapped per tick,
and the face-side counters are untouched; a phone at 0.59 or 0.6 is
ignored while 0.61 counts. -/
theorem C6_object_detection_counters :
    (∀ (s : ProctorState) (predictions : List Detection),
      (processObjectDetectionResults s predictions).phoneCount =
        s.phoneCount + predictions.countP
          (fun p => decide (p.cls = "cell phone" ∧ (0.6 : ℚ) < p.score)) ∧
      (processObjectDetectionResults s predictions).bookCount =
        s.bookCount + predictions.countP
          (fun p => decide (p.cls = "book" ∧ (0.6 : ℚ) < p.score)) ∧
      (processObjectDetectionResults s predictions).deviceCount =
        s.deviceCount + predictions.countP
          (fun p => decide (p.cls ∈ ["laptop", "keyboard", "mouse", "remote"] ∧
            (0.6 : ℚ) < p.score)) ∧
      (processObjectDetectionResults s predictions).lookAwayCount = s.lookAwayCount ∧
      (processObjectDetectionResults s predictions).noFaceCount = s.noFaceCount ∧
      (processObjectDetectionResults s predictions).multipleFacesCount =
        s.multipleFacesCount) ∧
    (processObjectDetectionResults initState
      [⟨"cell phone", 0.59⟩, ⟨"cell phone", 0.6⟩, ⟨"cell phone", 0.61⟩]).phoneCount
      = 1 := by
  constructor
  · intro s predictions
    obtain ⟨f1, f2, f3, f4, f5, f6, f7⟩ := foldlProhibited_fields
      (predictions.filter
        (fun p => decide (p.cls ∈ PROHIBITED_ITEMS ∧ (0.6 : ℚ) < p.score))) s
    unfold processObjectDetectionResults
    refine ⟨?_, ?_, ?_, f1, f2, f3⟩
    · rw [foldlProhibited_phone, List.countP_filter]
      congr 1
      apply List.countP_congr
      intro p _
      by_cases h1 : p.cls = "cell phone" <;>
        by_cases h2 : (0.6 : ℚ) < p.score <;>
        simp [h1, h2, PROHIBITED_ITEMS]
    · rw [foldlProhibited_book, List.countP_filter]
      congr 1
      apply List.countP_congr
      intro p _
      by_cases h1 : p.cls = "book" <;>
        by_cases h2 : (0.6 : ℚ) < p.score <;>
        simp [h1, h2, PROHIBITED_ITEMS]
    · rw [foldlProhibited_device, List.countP_filter]
      congr 1
      apply List.countP_congr
      intro p _
      by_cases h1 : p.cls ∈ ["laptop", "keyboard", "mouse", "remote"] <;>
        by_cases h2 : (0.6 : ℚ) < p.score
      · rcases (by simpa using h1) with h | h | h | h <;>
          simp [h, h2, PROHIBITED_ITEMS]
      · rcases (by simpa using h1) with h | h | h | h <;>
          simp [h, h2, PROHIBITED_ITEMS]
      · simp [h1, h2]
      · simp [h1, h2]
  · with_unfolding_all rfl

/-- Claim C8 (amended): exporting a SessionState to the persisted report
schema and reimporting the stored record preserves all six counters and
the event order for every state, and preserves integrityScore for every
nonzero score; at integrityScore 0 the backend's JavaScript falsy default
(`integrityScore || 100`) stores 100 instead, so the round trip fails
exactly at score 0. -/
theorem C8_report_round_trip (s : ProctorState) (events : List EventEntry)
    (durationText startISO endISO id nowISO : String) :
    (storeReport id nowISO
      (downloadReportPayload s durationText startISO endISO events)).focusIssues =
      ⟨s.lookAwayCount, s.noFaceCount, s.multipleFacesCount⟩ ∧
    (storeReport id nowISO
      (downloadReportPayload s durationText startISO endISO events)).prohibitedItems =
      ⟨s.phoneCount, s.bookCount, s.deviceCount⟩ ∧
    (storeReport id nowISO
      (downloadReportPayload s durationText startISO endISO events)).events = events ∧
    (integrityScoreOf s ≠ 0 →
      (storeReport id nowISO
        (downloadReportPayload s durationText startISO endISO events)).integrityScore =
        integrityScoreOf s) := by
  refine ⟨rfl, rfl, rfl, fun hne => ?_⟩
  unfold storeReport downloadReportPayload
  simp [hne]

/-- Counterexample for C8 as frozen: at integrityScore 0 (deductions 100)
the stored record's integrityScore is 100, not the exported 0. -/
theorem C8_report_round_trip_cex :
    (storeReport "r1" "t1"
      (downloadReportPayload heavyState "d" "s" "e" [])).integrityScore ≠
      (downloadReportPayload heavyState "d" "s" "e" []).integrityScore := by
  with_unfolding_all decide

/-- Witness for C8: a fresh session (score 100) round-trips its score. -/
theorem C8_report_round_trip_witness :
    (storeReport "r0" "t0"
      (downloadReportPayload initState "d" "s" "e" [])).integrityScore =
      integrityScoreOf initState :=
  (C8_report_round_trip initState [] "d" "s" "e" "r0" "t0").2.2.2
    (by with_unfolding_all decide)

/-- Claim C9: each of the six violation counters is monotonically
non-decreasing across every sequence of ticks, and consequently the
integrity score is monotonically non-increasing. -/
theorem C9_counters_monotone (s : ProctorState) (ticks : List Tick) :
    s.lookAwayCount ≤ (run s ticks).lookAwayCount ∧
    s.noFaceCount ≤ (run s ticks).noFaceCount ∧
    s.multipleFacesCount ≤ (run s ticks).multipleFacesCount ∧
    s.phoneCount ≤ (run s ticks).phoneCount ∧
    s.bookCount ≤ (run s ticks).bookCount ∧
    s.deviceCount ≤ (run s ticks).deviceCount ∧
    integrityScoreOf (run s ticks) ≤ integrityScoreOf s := by
  obtain ⟨h1, h2, h3, h4, h5, h6⟩ := run_counters_mono ticks s
  refine ⟨h1, h2, h3, h4, h5, h6, ?_⟩
  have hd : deductionsOf s ≤ deductionsOf (run s ticks) := by
    unfold deductionsOf
    omega
  unfold integrityScoreOf
  exact max_le (le_max_left _ _)
    (le_trans (by omega) (le_max_right 0 (100 - deductionsOf s)))

/-- Claim C10: the debounce window is one session-global history shared by
all faces: a frame with k ≥ 1 faces appends exactly k raw samples in
face-list order to the shared history, which is then truncated to its most
recent 8 entries, and the window length never exceeds 8 after any update
in a session. -/
theorem C10_shared_gaze_window :
    (∀ (s : ProctorState) (faces : List FaceObs) (now : ℚ),
      faces ≠ [] → s.gazeDirectionHistory.length ≤ GAZE_HISTORY_LENGTH →
      (processFaceDetectionResults s faces now).gazeDirectionHistory =
        takeLast GAZE_HISTORY_LENGTH
          (s.gazeDirectionHistory ++ faces.map checkGazeRawLookingAway) ∧
      (processFaceDetectionResults s faces now).gazeDirectionHistory.length ≤
        GAZE_HISTORY_LENGTH) ∧
    (∀ ticks : List Tick,
      (run initState ticks).gazeDirectionHistory.length ≤ GAZE_HISTORY_LENGTH) := by
  constructor
  · intro s faces now hne hlen
    have he : ¬ faces.isEmpty := by simpa [List.isEmpty_iff] using hne
    have key : (processFaceDetectionResults s faces now).gazeDirectionHistory =
        takeLast GAZE_HISTORY_LENGTH
          (s.gazeDirectionHistory ++ faces.map checkGazeRawLookingAway) := by
      rw [processFace_nonempty s faces now he]
      by_cases hc : faces.length > 1 ∧ s.multipleFacesCount = 0
      · rw [if_pos hc]
        obtain ⟨g1, g2, g3, g4, g5, g6, g7⟩ := foldlGaze_fields faces
          { s with noFaceStartTime := none
                   multipleFacesCount := s.multipleFacesCount + 1 } now
        have hb : ({ s with noFaceStartTime := none, multipleFacesCount := s.multipleFacesCount + 1 } : ProctorState).gazeDirectionHistory.length ≤ GAZE_HISTORY_LENGTH := hlen
        rw [g7, foldl_pushSample_eq _ _ _ hb]
      · rw [if_neg hc]
        obtain ⟨g1, g2, g3, g4, g5, g6, g7⟩ := foldlGaze_fields faces
          { s with noFaceStartTime := none } now
        have hb : ({ s with noFaceStartTime := none } : ProctorState).gazeDirectionHistory.length ≤ GAZE_HISTORY_LENGTH := hlen
        rw [g7, foldl_pushSample_eq _ _ _ hb]
    refine ⟨key, ?_⟩
    rw [key, takeLast_length]
    omega
  · intro ticks
    exact run_history_le ticks initState (by norm_num [initState])

/-- Witness for C10: a frame with two faces appended to the fresh session
window. -/
theorem C10_shared_gaze_window_witness :
    (processFaceDetectionResults initState [awayFace, awayFace] 0).gazeDirectionHistory =
      takeLast GAZE_HISTORY_LENGTH
        (initState.gazeDirectionHistory ++
          [awayFace, awayFace].map checkGazeRawLookingAway) :=
  (C10_shared_gaze_window.1 initState [awayFace, awayFace] 0 (by simp)
    (by norm_num [initState])).1

end Proctor
